import Mathlib

/-!
Shallow embedding of the atlas-asset-client component model
(`atlas_asset_http_client_python/components.py`) and HTTP client
(`atlas_asset_http_client_python/http_client.py`), together with proofs
of the behavioural claims about them.

Python runtime values are modelled by the inductive type `Obj`:
`Obj.none`/`Obj.bool`/`Obj.int`/`Obj.float`/`Obj.str` are the scalar
values, `Obj.list` and `Obj.dict` are the container values, and
`Obj.model cls fields extras` is an `AtlasModel` dataclass instance of
runtime class `cls` whose declared dataclass fields (in declaration
order, as returned by `dataclasses.fields`) are `fields` and whose
additional instance attributes (the `custom_`-prefixed extension data
set by the keyword constructors) are `extras`.  Python exceptions are
modelled by `PyErr`; fallible code returns `Except PyErr _`.
-/

/-- Python exception values raised by this code base. -/
inductive PyErr where
  | typeError (msg : String)
  | valueError (msg : String)
  | runtimeError (msg : String)
deriving Repr, DecidableEq

/-- Python runtime values, including `AtlasModel` dataclass instances. -/
inductive Obj where
  | none : Obj
  | bool : Bool → Obj
  | int : Int → Obj
  | float : Rat → Obj
  | str : String → Obj
  | list : List Obj → Obj
  | dict : List (String × Obj) → Obj
  | model : String → List (String × Obj) → List (String × Obj) → Obj
deriving Repr

/-- Python `value is None`. -/
def Obj.isNone : Obj → Bool
  | .none => true
  | _ => false

/-- Python `type(value).__name__`. -/
def Obj.typeName : Obj → String
  | .none => "NoneType"
  | .bool _ => "bool"
  | .int _ => "int"
  | .float _ => "float"
  | .str _ => "str"
  | .list _ => "list"
  | .dict _ => "dict"
  | .model cls _ _ => cls

/-- The numeric value of an `int` or `float` object, when it has one. -/
def Obj.toRat? : Obj → Option Rat
  | .int n => some (n : Rat)
  | .float q => some q
  | _ => Option.none

/-- Python truthiness (`bool(value)`) for the values this client inspects.
Model instances define neither a custom bool conversion nor a length, so
they are always truthy. -/
def Obj.isTruthy : Obj → Bool
  | .none => false
  | .bool b => b
  | .int n => n != 0
  | .float q => q != 0
  | .str s => !s.isEmpty
  | .list xs => !xs.isEmpty
  | .dict xs => !xs.isEmpty
  | .model _ _ _ => true

/-- Python `str.startswith`. -/
def py_startswith (s p : String) : Bool := p.toList.isPrefixOf s.toList

/-- Python `str.endswith`. -/
def py_endswith (s p : String) : Bool := p.toList.isSuffixOf s.toList

/-- Python `d.get(k)` on a dict: the value at the first matching key, or
`None` when the key is absent. -/
def dict_get (xs : List (String × Obj)) (k : String) : Obj :=
  match xs.find? (fun p => p.1 == k) with
  | some p => p.2
  | Option.none => Obj.none

mutual

/-- `AtlasModel.model_dump`: the inner `serialize` closure.  A model becomes
a dict of its declared fields (each value serialized) followed by its
`custom_`-prefixed extra attributes whose key is not already a declared
field; lists and dicts are serialized element- and value-wise; scalars pass
through unchanged. -/
def serialize : Obj → Obj
  | .model _ fs ex =>
      .dict (serializeEntries fs ++
        (serializeEntries ex).filter
          (fun p => py_startswith p.1 ("custom_") && !(fs.map Prod.fst).contains p.1))
  | .list xs => .list (serializeList xs)
  | .dict xs => .dict (serializeEntries xs)
  | x => x

def serializeList : List Obj → List Obj
  | [] => []
  | x :: xs => serialize x :: serializeList xs

def serializeEntries : List (String × Obj) → List (String × Obj)
  | [] => []
  | (k, v) :: xs => (k, serialize v) :: serializeEntries xs

end

mutual

/-- `components._exclude_none`: recursively remove `None`-valued keys from
dicts; recurse through lists; return anything else unchanged. -/
def _exclude_none : Obj → Obj
  | .dict xs => .dict (excludeNoneEntries xs)
  | .list xs => .list (excludeNoneList xs)
  | x => x

def excludeNoneList : List Obj → List Obj
  | [] => []
  | x :: xs => _exclude_none x :: excludeNoneList xs

def excludeNoneEntries : List (String × Obj) → List (String × Obj)
  | [] => []
  | (k, v) :: xs =>
      if v.isNone then excludeNoneEntries xs
      else (k, _exclude_none v) :: excludeNoneEntries xs

end

/-- `AtlasModel.model_dump`: serialize, then strip `None` values when
`exclude_none` is set. -/
def model_dump (o : Obj) (exclude_none : Bool) : Obj :=
  if exclude_none then _exclude_none (serialize o) else serialize o

mutual

/-- No dict entry anywhere in the value (including inside model fields and
extras) carries the value `None`. -/
def noNoneEntry : Obj → Bool
  | .dict xs => noNoneEntries xs
  | .list xs => noNoneList xs
  | .model _ fs ex => noNoneEntries fs && noNoneEntries ex
  | _ => true

def noNoneList : List Obj → Bool
  | [] => true
  | x :: xs => noNoneEntry x && noNoneList xs

def noNoneEntries : List (String × Obj) → Bool
  | [] => true
  | (_, v) :: xs => !v.isNone && noNoneEntry v && noNoneEntries xs

end

mutual

/-- The value contains no model instance. -/
def modelFree : Obj → Bool
  | .model _ _ _ => false
  | .list xs => modelFreeList xs
  | .dict xs => modelFreeEntries xs
  | _ => true

def modelFreeList : List Obj → Bool
  | [] => true
  | x :: xs => modelFree x && modelFreeList xs

def modelFreeEntries : List (String × Obj) → Bool
  | [] => true
  | (_, v) :: xs => modelFree v && modelFreeEntries xs

end

mutual

/-- `keysKept a b`: every dict key of `a` whose value is not `None` is
still present in `b` (at the same nesting position, recursively), so in
particular every key with a falsy-but-present value (0, empty string,
empty list) survives. -/
def keysKept : Obj → Obj → Bool
  | .dict xs, .dict ys => keysKeptEntries xs ys
  | .dict _, _ => false
  | .list xs, .list ys => keysKeptList xs ys
  | .list _, _ => false
  | _, _ => true

def keysKeptList : List Obj → List Obj → Bool
  | [], _ => true
  | _ :: _, [] => false
  | x :: xs, y :: ys => keysKept x y && keysKeptList xs ys

def keysKeptEntries : List (String × Obj) → List (String × Obj) → Bool
  | [], _ => true
  | (k, v) :: xs, ys =>
      (v.isNone || ys.any (fun q => q.1 == k && keysKept v q.2)) &&
        keysKeptEntries xs ys

end

/-- `components._check_numeric`: `None` passes; a bool, or anything that is
not an int or float, raises `TypeError`. -/
def _check_numeric (name : String) (value : Obj) : Except PyErr Unit :=
  match value with
  | .none => .ok ()
  | .bool _ => .error (.typeError (name ++ (" must be a number, got bool")))
  | .int _ => .ok ()
  | .float _ => .ok ()
  | v => .error (.typeError (name ++ (" must be a number, got ") ++ v.typeName))

/-- `components._check_timestamp`, with `datetime.fromisoformat` abstracted
as the external parse oracle `parse`: `None` passes; a non-string raises
`TypeError`; a string has a trailing UTC designator Z replaced by the
explicit +00:00 offset before parsing, and a parse failure raises
`ValueError`. -/
def _check_timestamp (parse : String → Bool) (name : String) (value : Obj) :
    Except PyErr Unit :=
  match value with
  | .none => .ok ()
  | .str s =>
      let parsed_value := if py_endswith s ("Z") then s.dropRight 1 ++ ("+00:00") else s
      if parse parsed_value then .ok ()
      else .error (.valueError
        (name ++ (" must be a valid RFC 3339 timestamp, got \x27") ++ s ++ ("\x27")))
  | v => .error (.typeError (name ++ (" must be a string, got ") ++ v.typeName))

/-- `TelemetryComponent.__init__` plus `__post_init__`: the five numeric
checks, then the latitude/longitude/speed/heading range checks. -/
def TelemetryComponent_init
    (latitude longitude altitude_m speed_m_s heading_deg : Obj) :
    Except PyErr Obj := do
  _check_numeric ("latitude") latitude
  _check_numeric ("longitude") longitude
  _check_numeric ("altitude_m") altitude_m
  _check_numeric ("speed_m_s") speed_m_s
  _check_numeric ("heading_deg") heading_deg
  match latitude.toRat? with
  | some q =>
      if q < -90 ∨ 90 < q then
        throw (.valueError ("latitude must be between -90 and 90"))
      else pure ()
  | Option.none => pure ()
  match longitude.toRat? with
  | some q =>
      if q < -180 ∨ 180 < q then
        throw (.valueError ("longitude must be between -180 and 180"))
      else pure ()
  | Option.none => pure ()
  match speed_m_s.toRat? with
  | some q =>
      if q < 0 then throw (.valueError ("speed_m_s must be non-negative"))
      else pure ()
  | Option.none => pure ()
  match heading_deg.toRat? with
  | some q =>
      if q < 0 ∨ 360 ≤ q then
        throw (.valueError
          ("heading_deg must be between 0 (inclusive) and 360 (exclusive)"))
      else pure ()
  | Option.none => pure ()
  pure (.model ("TelemetryComponent")
    [(("latitude"), latitude), (("longitude"), longitude),
     (("altitude_m"), altitude_m), (("speed_m_s"), speed_m_s),
     (("heading_deg"), heading_deg)] [])

/-- `GeometryComponent`: a plain dataclass with no `__post_init__`, so
construction stores the arguments without any runtime validation. -/
def GeometryComponent_init (type coordinates : Obj) : Except PyErr Obj :=
  .ok (.model ("GeometryComponent")
    [(("type"), type), (("coordinates"), coordinates)] [])

/-- `HealthComponent.__post_init__`: numeric check then the 0..100 range
check on `battery_percent`. -/
def HealthComponent_init (battery_percent : Obj) : Except PyErr Obj := do
  _check_numeric ("battery_percent") battery_percent
  match battery_percent.toRat? with
  | some q =>
      if q < 0 ∨ 100 < q then
        throw (.valueError ("battery_percent must be between 0 and 100"))
      else pure ()
  | Option.none => pure ()
  pure (.model ("HealthComponent") [(("battery_percent"), battery_percent)] [])

/-- `SensorRefItem.__post_init__`: numeric checks on the four FOV and
orientation fields; `sensor_id` and `type` are stored unchecked. -/
def SensorRefItem_init
    (sensor_id type_arg vertical_fov horizontal_fov
     vertical_orientation horizontal_orientation : Obj) : Except PyErr Obj := do
  _check_numeric ("vertical_fov") vertical_fov
  _check_numeric ("horizontal_fov") horizontal_fov
  _check_numeric ("vertical_orientation") vertical_orientation
  _check_numeric ("horizontal_orientation") horizontal_orientation
  pure (.model ("SensorRefItem")
    [(("sensor_id"), sensor_id), (("type"), type_arg),
     (("vertical_fov"), vertical_fov), (("horizontal_fov"), horizontal_fov),
     (("vertical_orientation"), vertical_orientation),
     (("horizontal_orientation"), horizontal_orientation)] [])

/-- `MilViewComponent.__post_init__`: the timestamp check on `last_seen`;
`classification` is stored unchecked at runtime. -/
def MilViewComponent_init (parse : String → Bool)
    (classification last_seen : Obj) : Except PyErr Obj := do
  _check_timestamp parse ("last_seen") last_seen
  pure (.model ("MilViewComponent")
    [(("classification"), classification), (("last_seen"), last_seen)] [])

/-- `TaskProgressComponent.__post_init__`: numeric check on `percent`,
timestamp check on `updated_at`, then the 0..100 range check. -/
def TaskProgressComponent_init (parse : String → Bool)
    (percent updated_at status_detail : Obj) : Except PyErr Obj := do
  _check_numeric ("percent") percent
  _check_timestamp parse ("updated_at") updated_at
  match percent.toRat? with
  | some q =>
      if q < 0 ∨ 100 < q then
        throw (.valueError ("percent must be between 0 and 100"))
      else pure ()
  | Option.none => pure ()
  pure (.model ("TaskProgressComponent")
    [(("percent"), percent), (("updated_at"), updated_at),
     (("status_detail"), status_detail)] [])

/-- Python `setattr` on the attribute dict: overwrite the first matching
key, or append a new attribute. -/
def set_attr (attrs : List (String × Obj)) (k : String) (v : Obj) :
    List (String × Obj) :=
  if attrs.any (fun p => p.1 == k) then
    attrs.map (fun p => if p.1 == k then (k, v) else p)
  else attrs ++ [(k, v)]

/-- The keyword loop shared by the `__init__` overrides of
`EntityComponents`, `TaskParametersComponent`, `TaskComponents` and
`ObjectMetadata`: a known field name or a `custom_`-prefixed name is stored
with `setattr`; any other name raises `ValueError` via `mkErr`. -/
def kwargs_init (known : List String) (mkErr : String → PyErr) :
    List (String × Obj) → List (String × Obj) →
    Except PyErr (List (String × Obj))
  | [], attrs => .ok attrs
  | (k, v) :: rest, attrs =>
      if known.contains k then kwargs_init known mkErr rest (set_attr attrs k v)
      else if py_startswith k ("custom_") then
        kwargs_init known mkErr rest (set_attr attrs k v)
      else .error (mkErr k)

/-- The dataclass instance left behind by a keyword `__init__`: every
declared field reads its assigned value via `getattr`, falling back to the
class-level default `None`; the `custom_`-prefixed instance attributes are
the extras seen by `model_dump`. -/
def build_model (cls : String) (fieldNames : List String)
    (attrs : List (String × Obj)) : Obj :=
  .model cls
    (fieldNames.map (fun n =>
      (n, match attrs.find? (fun p => p.1 == n) with
          | some p => p.2
          | Option.none => Obj.none)))
    (attrs.filter (fun p => py_startswith p.1 ("custom_")))

/-- The declared field names of `EntityComponents`, in declaration order. -/
def entityComponentFields : List String :=
  [("telemetry"), ("geometry"), ("task_catalog"), ("media_refs"),
   ("mil_view"), ("health"), ("sensor_refs"), ("communications"),
   ("task_queue"), ("status"), ("heartbeat")]

/-- The `ValueError` message raised by `EntityComponents.__init__` for an
unknown component name. -/
def unknownComponentMsg (key : String) : String :=
  ("Unknown component \x27") ++ key ++
    ("\x27. Custom components must be prefixed with \x27custom_\x27")

/-- `EntityComponents.__init__`: keyword arguments are stored when the name
is a declared component or carries the `custom_` extension marker, and any
other name raises the unknown-component `ValueError`. -/
def EntityComponents_init (kwargs : List (String × Obj)) : Except PyErr Obj :=
  (kwargs_init entityComponentFields
      (fun k => .valueError (unknownComponentMsg k)) kwargs []).map
    (fun attrs => build_model ("EntityComponents") entityComponentFields attrs)

/-- The declared field names of `TaskParametersComponent`. -/
def taskParameterFields : List String :=
  [("latitude"), ("longitude"), ("altitude_m")]

/-- `TaskParametersComponent.__init__`: the same keyword loop with its own
known-field set and error message.  It performs no numeric validation. -/
def TaskParametersComponent_init (kwargs : List (String × Obj)) :
    Except PyErr Obj :=
  (kwargs_init taskParameterFields
      (fun k => .valueError (("Unknown task parameter \x27") ++ k ++
        ("\x27. Custom parameters must be prefixed with \x27custom_\x27")))
      kwargs []).map
    (fun attrs => build_model ("TaskParametersComponent") taskParameterFields attrs)

/-- The declared field names of `TaskComponents`. -/
def taskComponentFields : List String :=
  [("command"), ("parameters"), ("progress")]

/-- `TaskComponents.__init__`: the same keyword loop for task components. -/
def TaskComponents_init (kwargs : List (String × Obj)) : Except PyErr Obj :=
  (kwargs_init taskComponentFields
      (fun k => .valueError (("Unknown task component \x27") ++ k ++
        ("\x27. Custom components must be prefixed with \x27custom_\x27")))
      kwargs []).map
    (fun attrs => build_model ("TaskComponents") taskComponentFields attrs)

/-- `components.components_to_dict`: `None` maps to `None`; a plain dict is
returned unchanged; an `EntityComponents`/`TaskComponents` instance is
dumped with `exclude_none`; anything else raises `TypeError`. -/
def components_to_dict (components : Obj) : Except PyErr Obj :=
  match components with
  | .none => .ok .none
  | .dict xs => .ok (.dict xs)
  | .model cls fs ex =>
      if cls == ("EntityComponents") || cls == ("TaskComponents") then
        .ok (model_dump (.model cls fs ex) true)
      else
        .error (.typeError
          (("Expected EntityComponents or TaskComponents, got ") ++ cls))
  | v =>
      .error (.typeError
        (("Expected EntityComponents or TaskComponents, got ") ++ v.typeName))

/-- The connection-owning state of `AtlasCommandHttpClient`: `client` is
`some ()` while the underlying `httpx.AsyncClient` is open and `none` after
`aclose` has released it. -/
structure AtlasCommandHttpClient where
  base_url : String
  token : Option String
  client : Option Unit
deriving Repr, DecidableEq

/-- `AtlasCommandHttpClient.__init__`: the base URL is stored with trailing
slashes stripped and a fresh connection is owned. -/
def AtlasCommandHttpClient_init (base_url : String) (token : Option String) :
    AtlasCommandHttpClient :=
  { base_url := base_url.dropRightWhile (fun c => c == ('/'))
    token := token
    client := some () }

/-- `AtlasCommandHttpClient.aclose`: close the underlying connection when
one is still owned and drop it; a second call finds nothing to close and
does nothing.  It never raises. -/
def aclose (c : AtlasCommandHttpClient) : AtlasCommandHttpClient :=
  { c with client := Option.none }

/-- The `_http` property: the live connection, or `RuntimeError` when the
client has been closed. -/
def _http (c : AtlasCommandHttpClient) : Except PyErr Unit :=
  match c.client with
  | some u => .ok u
  | Option.none => .error (.runtimeError ("Client is closed"))

/-- `AtlasCommandHttpClient._request` with the transport as an oracle:
obtain the connection via `_http`, then perform the HTTP exchange.  Every
JSON operation of the client goes through this method. -/
def _request (c : AtlasCommandHttpClient)
    (send : String → String → Except PyErr Obj) (method path : String) :
    Except PyErr Obj := do
  let _ ← _http c
  send method path

/-- `AtlasCommandHttpClient._multipart_request` with the transport as an
oracle: obtain the connection via `_http`, then POST the multipart body. -/
def _multipart_request (c : AtlasCommandHttpClient)
    (post : String → Except PyErr Obj) (path : String) : Except PyErr Obj := do
  let _ ← _http c
  post path

/-- `AtlasCommandHttpClient.download_object` with the transport as an
oracle: obtain the connection via `_http`, then GET the raw content with
its content-type and content-length. -/
def download_object (c : AtlasCommandHttpClient)
    (get : String → Except PyErr (List Nat × Option String × Option Nat))
    (object_id : String) :
    Except PyErr (List Nat × Option String × Option Nat) := do
  let _ ← _http c
  get (("/objects/") ++ object_id ++ ("/download"))

/-- The network oracle for the object-creation workflow: the parsed JSON
response of the multipart upload as a function of the form data, and the
response of each `add_object_reference` POST as a function of its
arguments. -/
structure Transport where
  uploadResp : List (String × String) → Except PyErr (List (String × Obj))
  addRef : Obj → Obj → Obj → Except PyErr Obj

/-- One `add_object_reference` request issued by `create_object`, recording
the target object id and the payload taken from the reference entry. -/
structure RefCall where
  object_id : Obj
  entity_id : Obj
  task_id : Obj
deriving Repr

/-- The multipart form data built by `create_object`: `object_id` always,
`usage_hint` and `type` only when truthy. -/
def upload_data (object_id : String)
    (usage_hint object_type : Option String) : List (String × String) :=
  [(("object_id"), object_id)] ++
    (match usage_hint with
     | some u => if u.isEmpty then [] else [(("usage_hint"), u)]
     | Option.none => []) ++
    (match object_type with
     | some t => if t.isEmpty then [] else [(("type"), t)]
     | Option.none => [])

/-- The sequential reference-attachment loop of `create_object`: one
`add_object_reference` call per entry in list order, each taking
`entity_id` and `task_id` from the entry with `dict.get`; the first failing
call aborts the remaining iterations.  Returns the issued calls and the
outcome. -/
def attach_refs (tr : Transport) (stored_object_id : Obj) :
    List (List (String × Obj)) → List RefCall × Except PyErr Unit
  | [] => ([], .ok ())
  | r :: rs =>
      let e := dict_get r ("entity_id")
      let t := dict_get r ("task_id")
      match tr.addRef stored_object_id e t with
      | .error err => ([⟨stored_object_id, e, t⟩], .error err)
      | .ok _ =>
          let rest := attach_refs tr stored_object_id rs
          (⟨stored_object_id, e, t⟩ :: rest.1, rest.2)

/-- The `RuntimeError` message of the workflow-integrity check in
`create_object`. -/
def missingObjectIdMsg : String :=
  ("AtlasCommandHttpClient.create_object expected the upload response to " ++
   "include an object_id before attaching references.")

/-- `AtlasCommandHttpClient.create_object` over the transport oracle:
validate `content_type`, upload the multipart body, and, when the caller
supplied a truthy (non-empty) reference list, require a truthy `object_id`
in the upload response before issuing one `add_object_reference` call per
entry; finally return the stored object record parsed from the upload
response.  The first result component lists the reference requests issued. -/
def create_object (tr : Transport) (object_id : String)
    (usage_hint object_type : Option String) (content_type : String)
    (referenced_by : Option (List (List (String × Obj)))) :
    List RefCall × Except PyErr Obj :=
  if content_type.isEmpty then
    ([], .error (.valueError ("create_object requires \x27content_type\x27")))
  else
    match tr.uploadResp (upload_data object_id usage_hint object_type) with
    | .error e => ([], .error e)
    | .ok stored =>
        let stored_object_id := dict_get stored ("object_id")
        match referenced_by with
        | Option.none => ([], .ok (.dict stored))
        | some refs =>
            if refs.isEmpty then ([], .ok (.dict stored))
            else if !stored_object_id.isTruthy then
              ([], .error (.runtimeError missingObjectIdMsg))
            else
              let run := attach_refs tr stored_object_id refs
              match run.2 with
              | .ok _ => (run.1, .ok (.dict stored))
              | .error e => (run.1, .error e)

/-- An int or float object (a GeoJSON coordinate number). -/
def isNumberObj : Obj → Bool
  | .int _ => true
  | .float _ => true
  | _ => false

/-- Stated from the spec for comparison with the code: the GeoJSON nesting
convention for `GeometryComponent.coordinates` — one level of nesting for
Point, two for LineString, three for Polygon. -/
def spec_geojson_depth_matches (type coordinates : Obj) : Bool :=
  match type, coordinates with
  | .str t, .list xs =>
      if t == ("Point") then xs.all isNumberObj
      else if t == ("LineString") then
        xs.all (fun row => match row with
          | .list r => r.all isNumberObj
          | _ => false)
      else if t == ("Polygon") then
        xs.all (fun ring => match ring with
          | .list rows => rows.all (fun row => match row with
              | .list r => r.all isNumberObj
              | _ => false)
          | _ => false)
      else false
  | _, _ => false

/-- Claim C9: after the client has been closed, every operation that would
issue a request (all of which acquire the connection through the `_http`
property backing `_request`, `_multipart_request` and the raw download/view
accessors) fails with the `RuntimeError` naming the closed client, and a
second close is a no-op rather than a failure. -/
theorem closed_client_rejects_operations :
    ∀ (c : AtlasCommandHttpClient)
      (send : String → String → Except PyErr Obj)
      (post : String → Except PyErr Obj)
      (get : String → Except PyErr (List Nat × Option String × Option Nat))
      (method path object_id : String),
      _request (aclose c) send method path =
          .error (.runtimeError ("Client is closed"))
      ∧ _multipart_request (aclose c) post path =
          .error (.runtimeError ("Client is closed"))
      ∧ download_object (aclose c) get object_id =
          .error (.runtimeError ("Client is closed"))
      ∧ aclose (aclose c) = aclose c := by
  intro c send post get method path object_id
  exact ⟨rfl, rfl, rfl, rfl⟩

/-- Claim C8 counterexample: Point coordinates with two levels of nesting
violate the GeoJSON depth convention, yet `GeometryComponent` construction
accepts them. -/
theorem geometry_depth_mismatch_accepted :
    spec_geojson_depth_matches (.str ("Point"))
        (.list [.list [.float 1, .float 2]]) = false
    ∧ GeometryComponent_init (.str ("Point"))
        (.list [.list [.float 1, .float 2]]) =
      .ok (.model ("GeometryComponent")
        [(("type"), .str ("Point")),
         (("coordinates"), .list [.list [.float 1, .float 2]])] []) := by
  exact ⟨rfl, rfl⟩

/-- Claim C8 (amended): `GeometryComponent` is a plain dataclass with no
`__post_init__`, so construction performs no runtime validation at all —
every type/coordinates combination is accepted and stored as given. -/
theorem geometry_construction_never_validates :
    ∀ type coordinates : Obj,
      GeometryComponent_init type coordinates =
        .ok (.model ("GeometryComponent")
          [(("type"), type), (("coordinates"), coordinates)] []) := by
  intro type coordinates
  rfl

/-- Claim C5 counterexample: `TaskParametersComponent` overrides `__init__`
with the keyword loop and never runs `_check_numeric` (nor a
`__post_init__`), so a boolean latitude is accepted silently. -/
theorem task_parameters_accept_boolean :
    TaskParametersComponent_init [(("latitude"), .bool true)] =
      .ok (.model ("TaskParametersComponent")
        [(("latitude"), .bool true), (("longitude"), Obj.none),
         (("altitude_m"), Obj.none)] []) := by
  rfl

/-- Claim C5 (amended): every numeric field of the component types that run
the shared `_check_numeric` check (`TelemetryComponent`, `HealthComponent`,
`SensorRefItem`, `TaskProgressComponent`) rejects a boolean with a
`TypeError`; `TaskParametersComponent` is the exception — its constructor
performs no numeric validation and accepts booleans silently. -/
theorem numeric_fields_reject_booleans :
    ∀ b : Bool,
      TelemetryComponent_init (.bool b) Obj.none Obj.none Obj.none Obj.none =
          .error (.typeError ("latitude must be a number, got bool"))
      ∧ TelemetryComponent_init Obj.none (.bool b) Obj.none Obj.none Obj.none =
          .error (.typeError ("longitude must be a number, got bool"))
      ∧ TelemetryComponent_init Obj.none Obj.none (.bool b) Obj.none Obj.none =
          .error (.typeError ("altitude_m must be a number, got bool"))
      ∧ TelemetryComponent_init Obj.none Obj.none Obj.none (.bool b) Obj.none =
          .error (.typeError ("speed_m_s must be a number, got bool"))
      ∧ TelemetryComponent_init Obj.none Obj.none Obj.none Obj.none (.bool b) =
          .error (.typeError ("heading_deg must be a number, got bool"))
      ∧ HealthComponent_init (.bool b) =
          .error (.typeError ("battery_percent must be a number, got bool"))
      ∧ (∀ sensor_id type_arg : Obj,
          SensorRefItem_init sensor_id type_arg (.bool b) Obj.none Obj.none
              Obj.none =
            .error (.typeError ("vertical_fov must be a number, got bool")))
      ∧ (∀ sensor_id type_arg : Obj,
          SensorRefItem_init sensor_id type_arg Obj.none (.bool b) Obj.none
              Obj.none =
            .error (.typeError ("horizontal_fov must be a number, got bool")))
      ∧ (∀ sensor_id type_arg : Obj,
          SensorRefItem_init sensor_id type_arg Obj.none Obj.none (.bool b)
              Obj.none =
            .error (.typeError ("vertical_orientation must be a number, got bool")))
      ∧ (∀ sensor_id type_arg : Obj,
          SensorRefItem_init sensor_id type_arg Obj.none Obj.none Obj.none
              (.bool b) =
            .error (.typeError ("horizontal_orientation must be a number, got bool")))
      ∧ (∀ parse : String → Bool,
          TaskProgressComponent_init parse (.bool b) Obj.none Obj.none =
            .error (.typeError ("percent must be a number, got bool"))) := by
  intro b
  exact ⟨rfl, rfl, rfl, rfl, rfl, rfl, fun _ _ => rfl, fun _ _ => rfl,
    fun _ _ => rfl, fun _ _ => rfl, fun _ => rfl⟩

/-- Claim C3 (code bug): `components_to_dict` applied to a plain mapping —
the exact input of the repository's own
`test_with_raw_dict_raises_type_error` — returns the mapping unchanged
instead of raising the `TypeError` the test and the spec require. -/
theorem components_to_dict_returns_raw_dict :
    components_to_dict
        (.dict [(("telemetry"), .dict [(("latitude"), .float (40.7128 : Rat))])]) =
      .ok (.dict [(("telemetry"), .dict [(("latitude"), .float (40.7128 : Rat))])]) := by
  rfl

/-- When every `add_object_reference` exchange succeeds, the attachment
loop issues exactly one call per reference entry, in list order, taking
`entity_id` and `task_id` from the entry. -/
theorem attach_refs_all_ok (tr : Transport) (oid : Obj)
    (hok : ∀ o e t, ∃ r, tr.addRef o e t = .ok r) :
    ∀ refs : List (List (String × Obj)),
      attach_refs tr oid refs =
        (refs.map (fun r =>
          ⟨oid, dict_get r ("entity_id"), dict_get r ("task_id")⟩),
         .ok ()) := by
  intro refs
  induction refs with
  | nil => rfl
  | cons r rs ih =>
      obtain ⟨resp, hresp⟩ :=
        hok oid (dict_get r ("entity_id")) (dict_get r ("task_id"))
      simp [attach_refs, hresp, ih]

/-- Claim C10: a supplied-but-empty reference list is falsy in the
`if referenced_by:` guard, so `create_object` behaves exactly as if no
references were supplied — no workflow-integrity check, no reference
request, and the parsed upload response is returned. -/
theorem create_object_empty_reference_list :
    ∀ (tr : Transport) (object_id : String)
      (usage_hint object_type : Option String) (content_type : String),
      create_object tr object_id usage_hint object_type content_type
          (some []) =
        create_object tr object_id usage_hint object_type content_type
          Option.none
      ∧ (content_type.isEmpty = false →
          ∀ stored,
            tr.uploadResp (upload_data object_id usage_hint object_type) =
              .ok stored →
            create_object tr object_id usage_hint object_type content_type
                (some []) =
              ([], .ok (.dict stored))) := by
  intro tr object_id usage_hint object_type content_type
  refine ⟨?_, ?_⟩
  · cases hc : content_type.isEmpty with
    | true => simp [create_object, hc]
    | false =>
        cases htr : tr.uploadResp (upload_data object_id usage_hint object_type) with
        | error e => simp [create_object, hc, htr]
        | ok stored => simp [create_object, hc, htr]
  · intro hc stored htr
    simp [create_object, hc, htr]

/-- Claim C10 witness: a concrete run with an upload response that lacks
`object_id` still succeeds when the reference list is empty. -/
theorem create_object_empty_reference_list_witness :
    (("application/octet-stream") : String).isEmpty = false
    ∧ create_object
        ⟨fun _ => .ok [(("path"), .str ("s3://x"))], fun _ _ _ => .ok (.dict [])⟩
        ("obj-1") Option.none Option.none ("application/octet-stream")
        (some []) =
      ([], .ok (.dict [(("path"), .str ("s3://x"))])) := by
  refine ⟨rfl, ?_⟩
  exact (create_object_empty_reference_list
    ⟨fun _ => .ok [(("path"), .str ("s3://x"))], fun _ _ _ => .ok (.dict [])⟩
    ("obj-1") Option.none Option.none ("application/octet-stream")).2 rfl
    [(("path"), .str ("s3://x"))] rfl

/-- Claim C1: when the caller supplied a non-empty reference list and the
upload response has no `object_id` key, `create_object` raises the
workflow-integrity `RuntimeError` and issues zero reference-attachment
requests. -/
theorem create_object_missing_object_id_fatal :
    ∀ (tr : Transport) (object_id : String)
      (usage_hint object_type : Option String) (content_type : String)
      (refs : List (List (String × Obj))) (stored : List (String × Obj)),
      content_type.isEmpty = false →
      tr.uploadResp (upload_data object_id usage_hint object_type) =
        .ok stored →
      refs ≠ [] →
      stored.find? (fun p => p.1 == ("object_id")) = Option.none →
      create_object tr object_id usage_hint object_type content_type
          (some refs) =
        ([], .error (.runtimeError missingObjectIdMsg)) := by
  intro tr object_id usage_hint object_type content_type refs stored
    hct htr hrefs hfind
  have hget : dict_get stored ("object_id") = Obj.none := by
    unfold dict_get
    rw [hfind]
  cases refs with
  | nil => exact absurd rfl hrefs
  | cons r rs => simp [create_object, hct, htr, hget, Obj.isTruthy]

/-- Claim C1 witness: a concrete run — one reference entry, an upload
response without `object_id` — raises the workflow-integrity error with no
reference request issued. -/
theorem create_object_missing_object_id_fatal_witness :
    (("application/octet-stream") : String).isEmpty = false
    ∧ ([(("entity_id"), Obj.str ("asset-1"))] :: []) ≠ []
    ∧ (([] : List (String × Obj)).find? (fun p => p.1 == ("object_id")) =
        Option.none)
    ∧ create_object
        ⟨fun _ => .ok [], fun _ _ _ => .ok (.dict [])⟩
        ("obj-123") Option.none Option.none ("application/octet-stream")
        (some [[(("entity_id"), Obj.str ("asset-1"))]]) =
      ([], .error (.runtimeError missingObjectIdMsg)) := by
  refine ⟨rfl, by simp, rfl, ?_⟩
  exact create_object_missing_object_id_fatal
    ⟨fun _ => .ok [], fun _ _ _ => .ok (.dict [])⟩
    ("obj-123") Option.none Option.none ("application/octet-stream")
    [[(("entity_id"), Obj.str ("asset-1"))]] [] rfl rfl (by simp) rfl

/-- Claim C2: when the upload response carries a truthy `object_id` and
every reference exchange succeeds, `create_object` issues exactly one
add-reference request per caller-supplied entry, sequentially in list
order, each taking `entity_id` and `task_id` verbatim from its entry, and
returns the stored object record parsed from the upload response whatever
the number of references. -/
theorem create_object_attaches_references_in_order :
    ∀ (tr : Transport) (object_id : String)
      (usage_hint object_type : Option String) (content_type : String)
      (refs : List (List (String × Obj))) (stored : List (String × Obj)),
      content_type.isEmpty = false →
      tr.uploadResp (upload_data object_id usage_hint object_type) =
        .ok stored →
      Obj.isTruthy (dict_get stored ("object_id")) = true →
      (∀ o e t, ∃ r, tr.addRef o e t = .ok r) →
      create_object tr object_id usage_hint object_type content_type
          (some refs) =
        (refs.map (fun r =>
          ⟨dict_get stored ("object_id"),
           dict_get r ("entity_id"), dict_get r ("task_id")⟩),
         .ok (.dict stored)) := by
  intro tr object_id usage_hint object_type content_type refs stored
    hct htr hoid hok
  cases refs with
  | nil => simp [create_object, hct, htr]
  | cons r rs =>
      simp [create_object, hct, htr, hoid,
        attach_refs_all_ok tr (dict_get stored ("object_id")) hok (r :: rs)]

/-- Claim C2 witness: the repository test scenario — upload response
`object_id="obj-123"`, one reference entry — issues exactly one
add-reference request with entity_id/task_id verbatim. -/
theorem create_object_attaches_references_witness :
    (("application/octet-stream") : String).isEmpty = false
    ∧ Obj.isTruthy
        (dict_get [(("object_id"), Obj.str ("obj-123"))] ("object_id")) = true
    ∧ create_object
        ⟨fun _ => .ok [(("object_id"), Obj.str ("obj-123"))],
         fun _ _ _ => .ok (.dict [])⟩
        ("obj-123") (some ("mission_video")) (some ("heatmap"))
        ("application/octet-stream")
        (some [[(("entity_id"), Obj.str ("asset-1")),
                (("task_id"), Obj.str ("task-alpha"))]]) =
      ([⟨Obj.str ("obj-123"), Obj.str ("asset-1"), Obj.str ("task-alpha")⟩],
       .ok (.dict [(("object_id"), Obj.str ("obj-123"))])) := by
  refine ⟨rfl, rfl, ?_⟩
  exact create_object_attaches_references_in_order
    ⟨fun _ => .ok [(("object_id"), Obj.str ("obj-123"))],
     fun _ _ _ => .ok (.dict [])⟩
    ("obj-123") (some ("mission_video")) (some ("heatmap"))
    ("application/octet-stream")
    [[(("entity_id"), Obj.str ("asset-1")),
      (("task_id"), Obj.str ("task-alpha"))]]
    [(("object_id"), Obj.str ("obj-123"))]
    rfl rfl rfl (fun _ _ _ => ⟨.dict [], rfl⟩)

/-- Claim C6: for any behaviour of the external ISO-8601 parser, a string
timestamp ending in Z is accepted by the shared check exactly when the
string with the trailing Z replaced by +00:00 parses; a non-parsing string
raises `ValueError` naming the field and offending value; a non-`None`
non-string value raises `TypeError`. -/
theorem timestamp_z_suffix_normalization :
    ∀ (parse : String → Bool) (name s : String),
      (py_endswith s ("Z") = true →
        (_check_timestamp parse name (.str s) = .ok () ↔
          parse (s.dropRight 1 ++ ("+00:00")) = true))
      ∧ (parse (if py_endswith s ("Z") then s.dropRight 1 ++ ("+00:00") else s) =
            false →
          _check_timestamp parse name (.str s) =
            .error (.valueError
              (name ++ (" must be a valid RFC 3339 timestamp, got \x27") ++
                s ++ ("\x27"))))
      ∧ (∀ v : Obj, v ≠ Obj.none → (∀ t, v ≠ Obj.str t) →
          ∃ msg, _check_timestamp parse name v = .error (.typeError msg)) := by
  intro parse name s
  refine ⟨?_, ?_, ?_⟩
  · intro hz
    cases hp : parse (s.dropRight 1 ++ ("+00:00")) with
    | true => simp [_check_timestamp, hz, hp]
    | false => simp [_check_timestamp, hz, hp]
  · intro hp
    cases hz : py_endswith s ("Z") with
    | true =>
        simp only [hz, if_true, if_pos] at hp
        simp [_check_timestamp, hz, hp]
    | false =>
        simp only [hz, Bool.false_eq_true, if_false] at hp
        simp [_check_timestamp, hz, hp]
  · intro v hnone hstr
    cases v with
    | none => exact absurd rfl hnone
    | str t => exact absurd rfl (hstr t)
    | bool b => exact ⟨_, rfl⟩
    | int n => exact ⟨_, rfl⟩
    | float q => exact ⟨_, rfl⟩
    | list xs => exact ⟨_, rfl⟩
    | dict xs => exact ⟨_, rfl⟩
    | model cls fs ex => exact ⟨_, rfl⟩

/-- Claim C6 witness: the repository test timestamp with a parser that
accepts its normalized form. -/
theorem timestamp_z_suffix_normalization_witness :
    py_endswith ("2025-01-01T00:00:00Z") ("Z") = true
    ∧ _check_timestamp (fun t => t == ("2025-01-01T00:00:00+00:00"))
        ("last_update") (.str ("2025-01-01T00:00:00Z")) = .ok () := by
  refine ⟨rfl, ?_⟩
  exact ((timestamp_z_suffix_normalization
    (fun t => t == ("2025-01-01T00:00:00+00:00")) ("last_update")
    ("2025-01-01T00:00:00Z")).1 rfl).mpr rfl

/-- `modelFreeEntries` distributes over append. -/
theorem modelFreeEntries_append (a b : List (String × Obj)) :
    modelFreeEntries (a ++ b) = (modelFreeEntries a && modelFreeEntries b) := by
  induction a with
  | nil => simp [modelFreeEntries]
  | cons p rest ih =>
      cases p with
      | mk k v => simp [modelFreeEntries, ih, Bool.and_assoc]

/-- Filtering preserves `modelFreeEntries`. -/
theorem modelFreeEntries_filter (p : String × Obj → Bool)
    (xs : List (String × Obj)) (h : modelFreeEntries xs = true) :
    modelFreeEntries (xs.filter p) = true := by
  induction xs with
  | nil => simp [modelFreeEntries]
  | cons q rest ih =>
      cases q with
      | mk k v =>
          simp only [modelFreeEntries, Bool.and_eq_true] at h
          cases hp : p (k, v) with
          | true =>
              simp [List.filter_cons, hp, modelFreeEntries, h.1, ih h.2]
          | false =>
              simp [List.filter_cons, hp, ih h.2]

mutual

/-- The output of `serialize` contains no model instance: every model node
is turned into a plain dict. -/
theorem serialize_modelFree (x : Obj) : modelFree (serialize x) = true := by
  cases x with
  | model cls fs ex =>
      simp only [serialize, modelFree]
      rw [modelFreeEntries_append]
      simp [serializeEntries_modelFree fs,
        modelFreeEntries_filter _ _ (serializeEntries_modelFree ex)]
  | list xs => simpa [serialize, modelFree] using serializeList_modelFree xs
  | dict xs => simpa [serialize, modelFree] using serializeEntries_modelFree xs
  | none => rfl
  | bool b => rfl
  | int n => rfl
  | float q => rfl
  | str s => rfl

theorem serializeList_modelFree (xs : List Obj) :
    modelFreeList (serializeList xs) = true := by
  cases xs with
  | nil => rfl
  | cons x rest =>
      simp [serializeList, modelFreeList, serialize_modelFree x,
        serializeList_modelFree rest]

theorem serializeEntries_modelFree (xs : List (String × Obj)) :
    modelFreeEntries (serializeEntries xs) = true := by
  cases xs with
  | nil => rfl
  | cons p rest =>
      cases p with
      | mk k v =>
          simp [serializeEntries, modelFreeEntries, serialize_modelFree v,
            serializeEntries_modelFree rest]

end

/-- A model-free non-`None` value stays non-`None` under `_exclude_none`. -/
theorem exclude_none_not_none (v : Obj) (h : v.isNone = false) :
    (_exclude_none v).isNone = false := by
  cases v with
  | none => exact absurd h (by simp [Obj.isNone])
  | bool b => rfl
  | int n => rfl
  | float q => rfl
  | str s => rfl
  | list xs => rfl
  | dict xs => rfl
  | model cls fs ex => rfl

mutual

/-- On model-free input, the output of `_exclude_none` has no dict entry
whose value is `None`, at any nesting level. -/
theorem exclude_none_noNone (x : Obj) (h : modelFree x = true) :
    noNoneEntry (_exclude_none x) = true := by
  cases x with
  | model cls fs ex => exact absurd h (by simp [modelFree])
  | list xs =>
      simpa [_exclude_none, noNoneEntry] using
        excludeNoneList_noNone xs (by simpa [modelFree] using h)
  | dict xs =>
      simpa [_exclude_none, noNoneEntry] using
        excludeNoneEntries_noNone xs (by simpa [modelFree] using h)
  | none => rfl
  | bool b => rfl
  | int n => rfl
  | float q => rfl
  | str s => rfl

theorem excludeNoneList_noNone (xs : List Obj) (h : modelFreeList xs = true) :
    noNoneList (excludeNoneList xs) = true := by
  cases xs with
  | nil => rfl
  | cons x rest =>
      simp only [modelFreeList, Bool.and_eq_true] at h
      simp [excludeNoneList, noNoneList, exclude_none_noNone x h.1,
        excludeNoneList_noNone rest h.2]

theorem excludeNoneEntries_noNone (xs : List (String × Obj))
    (h : modelFreeEntries xs = true) :
    noNoneEntries (excludeNoneEntries xs) = true := by
  cases xs with
  | nil => rfl
  | cons p rest =>
      cases p with
      | mk k v =>
          simp only [modelFreeEntries, Bool.and_eq_true] at h
          cases hv : v.isNone with
          | true => simpa [excludeNoneEntries, hv] using
              excludeNoneEntries_noNone rest h.2
          | false =>
              simp [excludeNoneEntries, hv, noNoneEntries,
                exclude_none_not_none v hv, exclude_none_noNone v h.1,
                excludeNoneEntries_noNone rest h.2]

end

/-- Adding an entry to the target dict cannot lose a kept key. -/
theorem keysKeptEntries_cons_target (xs : List (String × Obj))
    (ys : List (String × Obj)) (q : String × Obj)
    (h : keysKeptEntries xs ys = true) :
    keysKeptEntries xs (q :: ys) = true := by
  induction xs with
  | nil => rfl
  | cons p rest ih =>
      cases p with
      | mk k v =>
          simp only [keysKeptEntries, Bool.and_eq_true, Bool.or_eq_true] at h ⊢
          refine ⟨?_, ih h.2⟩
          cases h.1 with
          | inl hv => exact Or.inl hv
          | inr hy => exact Or.inr (by simp [List.any_cons, hy])

mutual

/-- Every dict key with a non-`None` value survives `_exclude_none`, at
every nesting level. -/
theorem keysKept_exclude_none (x : Obj) :
    keysKept x (_exclude_none x) = true := by
  cases x with
  | dict xs =>
      simpa [_exclude_none, keysKept] using keysKeptEntries_exclude_none xs
  | list xs =>
      simpa [_exclude_none, keysKept] using keysKeptList_exclude_none xs
  | none => rfl
  | bool b => rfl
  | int n => rfl
  | float q => rfl
  | str s => rfl
  | model cls fs ex => rfl

theorem keysKeptList_exclude_none (xs : List Obj) :
    keysKeptList xs (excludeNoneList xs) = true := by
  cases xs with
  | nil => rfl
  | cons x rest =>
      simp [excludeNoneList, keysKeptList, keysKept_exclude_none x,
        keysKeptList_exclude_none rest]

theorem keysKeptEntries_exclude_none (xs : List (String × Obj)) :
    keysKeptEntries xs (excludeNoneEntries xs) = true := by
  cases xs with
  | nil => rfl
  | cons p rest =>
      cases p with
      | mk k v =>
          cases hv : v.isNone with
          | true =>
              simpa [excludeNoneEntries, hv, keysKeptEntries] using
                keysKeptEntries_exclude_none rest
          | false =>
              have hrest := keysKeptEntries_exclude_none rest
              simp [excludeNoneEntries, hv, keysKeptEntries, List.any_cons,
                keysKept_exclude_none v,
                keysKeptEntries_cons_target rest (excludeNoneEntries rest)
                  (k, _exclude_none v) hrest]

end

/-- Claim C4: the omit-unset serialization (`model_dump` with
`exclude_none`) of any value never contains a dict key whose value is
`None`, at any nesting level, and keeps every key of the plain dump whose
value is present — in particular keys holding falsy values such as 0, the
empty string or the empty list. -/
theorem model_dump_exclude_none_contract :
    ∀ o : Obj,
      noNoneEntry (model_dump o true) = true
      ∧ keysKept (model_dump o false) (model_dump o true) = true := by
  intro o
  refine ⟨?_, ?_⟩
  · show noNoneEntry (_exclude_none (serialize o)) = true
    exact exclude_none_noNone (serialize o) (serialize_modelFree o)
  · show keysKept (serialize o) (_exclude_none (serialize o)) = true
    exact keysKept_exclude_none (serialize o)


/-- If the keyword list contains a name that is neither known nor
`custom_`-prefixed, the keyword loop fails with the unknown-key error for
some such name. -/
theorem kwargs_init_bad_key (known : List String) (mkErr : String → PyErr) :
    ∀ (kwargs attrs : List (String × Obj)) (k : String) (v : Obj),
      (k, v) ∈ kwargs →
      k ∉ known →
      py_startswith k ("custom_") = false →
      ∃ k2, kwargs_init known mkErr kwargs attrs = .error (mkErr k2)
        ∧ k2 ∉ known ∧ py_startswith k2 ("custom_") = false := by
  intro kwargs
  induction kwargs with
  | nil =>
      intro attrs k v hmem hkn hcu
      exact absurd hmem (List.not_mem_nil _)
  | cons p rest ih =>
      intro attrs k v hmem hkn hcu
      cases p with
      | mk k0 v0 =>
          by_cases hk0 : k0 ∈ known
          · have hrest : (k, v) ∈ rest := by
              rcases List.mem_cons.mp hmem with he | h
              · injection he with h1 h2
                subst h1
                exact absurd hk0 hkn
              · exact h
            simpa [kwargs_init, hk0] using
              ih (set_attr attrs k0 v0) k v hrest hkn hcu
          · cases hc0 : py_startswith k0 ("custom_") with
            | true =>
                have hrest : (k, v) ∈ rest := by
                  rcases List.mem_cons.mp hmem with he | h
                  · injection he with h1 h2
                    subst h1
                    rw [hc0] at hcu
                    exact absurd hcu (by simp)
                  · exact h
                simpa [kwargs_init, hk0, hc0] using
                  ih (set_attr attrs k0 v0) k v hrest hkn hcu
            | false =>
                exact ⟨k0, by simp [kwargs_init, hk0, hc0], hk0, hc0⟩

/-- When every keyword is known or `custom_`-prefixed, the keyword loop
succeeds, folding the assignments with `setattr`. -/
theorem kwargs_init_ok (known : List String) (mkErr : String → PyErr) :
    ∀ (kwargs attrs : List (String × Obj)),
      (∀ p ∈ kwargs, p.1 ∈ known ∨ py_startswith p.1 ("custom_") = true) →
      kwargs_init known mkErr kwargs attrs =
        .ok (kwargs.foldl (fun a p => set_attr a p.1 p.2) attrs) := by
  intro kwargs
  induction kwargs with
  | nil => intro attrs hgood; rfl
  | cons p rest ih =>
      intro attrs hgood
      cases p with
      | mk k0 v0 =>
          by_cases hk0 : k0 ∈ known
          · simpa [kwargs_init, hk0] using
              ih (set_attr attrs k0 v0)
                (fun q hq => hgood q (List.mem_cons_of_mem _ hq))
          · have hc0 : py_startswith k0 ("custom_") = true := by
              rcases hgood (k0, v0) (by simp) with h | h
              · exact absurd h hk0
              · exact h
            simpa [kwargs_init, hk0, hc0] using
              ih (set_attr attrs k0 v0)
                (fun q hq => hgood q (List.mem_cons_of_mem _ hq))

/-- With pairwise-distinct keys disjoint from the accumulator, folding
`setattr` just appends the assignments in order. -/
theorem foldl_set_attr_of_disjoint :
    ∀ (kwargs attrs : List (String × Obj)),
      (kwargs.map Prod.fst).Nodup →
      (∀ p ∈ kwargs, attrs.any (fun q => q.1 == p.1) = false) →
      kwargs.foldl (fun a p => set_attr a p.1 p.2) attrs = attrs ++ kwargs := by
  intro kwargs
  induction kwargs with
  | nil => intro attrs hnd hdis; simp
  | cons p rest ih =>
      intro attrs hnd hdis
      cases p with
      | mk k0 v0 =>
          rw [List.map_cons] at hnd
          have hk0notin : k0 ∉ rest.map Prod.fst := (List.nodup_cons.mp hnd).1
          have hnd' : (rest.map Prod.fst).Nodup := (List.nodup_cons.mp hnd).2
          have h0 : attrs.any (fun q => q.1 == k0) = false :=
            hdis (k0, v0) (by simp)
          have hset : set_attr attrs k0 v0 = attrs ++ [(k0, v0)] := by
            simp [set_attr, h0]
          have hdis' : ∀ q ∈ rest,
              (attrs ++ [(k0, v0)]).any (fun r => r.1 == q.1) = false := by
            intro q hq
            have h1 : attrs.any (fun r => r.1 == q.1) = false :=
              hdis q (List.mem_cons_of_mem _ hq)
            have hne : q.1 ≠ k0 := by
              intro he
              exact hk0notin (he ▸ List.mem_map_of_mem Prod.fst hq)
            have h2 : (k0 == q.1) = false := beq_eq_false_iff_ne.mpr (Ne.symm hne)
            simp [List.any_append, h1, h2]
          rw [List.foldl_cons, hset, ih (attrs ++ [(k0, v0)]) hnd' hdis']
          simp

/-- Serialization of a dict entry list keeps each entry under its key. -/
theorem serializeEntries_mem :
    ∀ (l : List (String × Obj)) (k : String) (v : Obj),
      (k, v) ∈ l → (k, serialize v) ∈ serializeEntries l := by
  intro l
  induction l with
  | nil => intro k v hmem; exact absurd hmem (List.not_mem_nil _)
  | cons p rest ih =>
      intro k v hmem
      cases p with
      | mk k0 v0 =>
          rcases List.mem_cons.mp hmem with he | h
          · injection he with h1 h2
            subst h1
            subst h2
            exact List.mem_cons_self _ _
          · exact List.mem_cons_of_mem _ (ih k v h)

mutual

/-- On model-free values, `serialize` is the identity. -/
theorem serialize_id (x : Obj) (h : modelFree x = true) : serialize x = x := by
  cases x with
  | model cls fs ex => exact absurd h (by simp [modelFree])
  | list xs =>
      simpa [serialize] using
        congrArg Obj.list (serializeList_id xs (by simpa [modelFree] using h))
  | dict xs =>
      simpa [serialize] using
        congrArg Obj.dict (serializeEntries_id xs (by simpa [modelFree] using h))
  | none => rfl
  | bool b => rfl
  | int n => rfl
  | float q => rfl
  | str s => rfl

theorem serializeList_id (xs : List Obj) (h : modelFreeList xs = true) :
    serializeList xs = xs := by
  cases xs with
  | nil => rfl
  | cons x rest =>
      simp only [modelFreeList, Bool.and_eq_true] at h
      simp [serializeList, serialize_id x h.1, serializeList_id rest h.2]

theorem serializeEntries_id (xs : List (String × Obj))
    (h : modelFreeEntries xs = true) : serializeEntries xs = xs := by
  cases xs with
  | nil => rfl
  | cons p rest =>
      cases p with
      | mk k v =>
          simp only [modelFreeEntries, Bool.and_eq_true] at h
          simp [serializeEntries, serialize_id v h.1,
            serializeEntries_id rest h.2]

end

/-- No declared `EntityComponents` field name carries the `custom_`
extension marker. -/
theorem custom_key_not_field (k : String)
    (h : py_startswith k ("custom_") = true) :
    k ∉ entityComponentFields := by
  intro hc
  fin_cases hc <;> exact absurd h (by decide)

/-- Claim C7: an `EntityComponents` keyword that is neither a known
component name nor `custom_`-prefixed always fails construction with the
unknown-component error; a `custom_`-prefixed keyword always succeeds, is
stored opaquely, and appears under its key in the serialization output
(unchanged whenever the value is plain data rather than a nested model). -/
theorem entity_components_keyword_contract :
    ∀ (kwargs : List (String × Obj)) (k : String) (v : Obj),
      ((k, v) ∈ kwargs → k ∉ entityComponentFields →
        py_startswith k ("custom_") = false →
        ∃ k2, EntityComponents_init kwargs =
            .error (.valueError (unknownComponentMsg k2))
          ∧ k2 ∉ entityComponentFields
          ∧ py_startswith k2 ("custom_") = false)
      ∧ ((kwargs.map Prod.fst).Nodup →
        (∀ p ∈ kwargs,
          p.1 ∈ entityComponentFields ∨ py_startswith p.1 ("custom_") = true) →
        (k, v) ∈ kwargs →
        py_startswith k ("custom_") = true →
        ∃ m, EntityComponents_init kwargs = .ok m
          ∧ (∃ l, model_dump m false = .dict l ∧ (k, serialize v) ∈ l)
          ∧ (modelFree v = true → serialize v = v)) := by
  intro kwargs k v
  constructor
  · intro hmem hkn hcu
    obtain ⟨k2, herr, hk2, hc2⟩ :=
      kwargs_init_bad_key entityComponentFields
        (fun k => .valueError (unknownComponentMsg k)) kwargs [] k v hmem hkn hcu
    exact ⟨k2, by simp [EntityComponents_init, herr, Except.map], hk2, hc2⟩
  · intro hnd hgood hmem hcu
    have hfold := foldl_set_attr_of_disjoint kwargs [] hnd (fun p hp => rfl)
    have hok := kwargs_init_ok entityComponentFields
      (fun k => .valueError (unknownComponentMsg k)) kwargs [] hgood
    rw [hfold] at hok
    simp only [List.nil_append] at hok
    refine ⟨build_model ("EntityComponents") entityComponentFields kwargs,
      by simp [EntityComponents_init, hok, Except.map], ?_,
      fun hm => serialize_id v hm⟩
    refine ⟨_, rfl, ?_⟩
    apply List.mem_append_right
    apply List.mem_filter.mpr
    constructor
    · exact serializeEntries_mem _ k v
        (List.mem_filter.mpr ⟨hmem, by simpa using hcu⟩)
    · simp [List.map_map, hcu, custom_key_not_field k hcu]

/-- Claim C7 witness: `EntityComponents(unknown_component=...)` fails with
the unknown-component error, while `EntityComponents(custom_weather=...)`
succeeds and carries `custom_weather` unchanged into the serialization. -/
theorem entity_components_keyword_contract_witness :
    (∃ k2, EntityComponents_init
        [(("unknown_component"), Obj.dict [(("foo"), Obj.str ("bar"))])] =
          .error (.valueError (unknownComponentMsg k2))
      ∧ k2 ∉ entityComponentFields
      ∧ py_startswith k2 ("custom_") = false)
    ∧ (∃ m, EntityComponents_init
        [(("custom_weather"),
          Obj.dict [(("wind_speed"), Obj.int 12), (("gusts"), Obj.int 18)])] =
          .ok m
      ∧ (∃ l, model_dump m false = .dict l
          ∧ (("custom_weather"),
              serialize (Obj.dict
                [(("wind_speed"), Obj.int 12), (("gusts"), Obj.int 18)])) ∈ l)
      ∧ (modelFree (Obj.dict
            [(("wind_speed"), Obj.int 12), (("gusts"), Obj.int 18)]) = true →
          serialize (Obj.dict
              [(("wind_speed"), Obj.int 12), (("gusts"), Obj.int 18)]) =
            Obj.dict [(("wind_speed"), Obj.int 12), (("gusts"), Obj.int 18)])) := by
  constructor
  · exact (entity_components_keyword_contract
      [(("unknown_component"), Obj.dict [(("foo"), Obj.str ("bar"))])]
      ("unknown_component") (Obj.dict [(("foo"), Obj.str ("bar"))])).1
      (by simp) (by decide) rfl
  · exact (entity_components_keyword_contract
      [(("custom_weather"),
        Obj.dict [(("wind_speed"), Obj.int 12), (("gusts"), Obj.int 18)])]
      ("custom_weather")
      (Obj.dict [(("wind_speed"), Obj.int 12), (("gusts"), Obj.int 18)])).2
      (by simp)
      (by
        intro p hp
        rw [List.mem_singleton] at hp
        subst hp
        exact Or.inr rfl)
      (by simp) rfl
